import Mathlib

/-!
Verification of `get_papers_list/main.py` (PubMed affiliation scraper).

The Python source is shallowly embedded below: dictionaries with optional
keys become structures with `Option` fields, Python sets become `Finset
String`, regular-expression matching is embedded as explicit backtracking
matchers over `List Char`, and the one `try/except` whose body can actually
raise (`extract_article_info`, key lookups) is embedded as an
`Except String` computation plus a handler.  All embedded functions keep
the source's names where Lean allows it.
-/

/-! ### Python string primitives -/

/-- Python `str.isalpha()`: non-empty and every character alphabetic. -/
def pyIsAlpha (s : String) : Bool :=
  s.data ≠ [] && s.data.all Char.isAlpha

/-- Python `str.lower()` (ASCII fragment). -/
def lowerStr (s : String) : String :=
  String.mk (s.data.map Char.toLower)

/-- Python `str.strip()` with no argument: drop whitespace from both ends. -/
def stripWS (s : String) : String :=
  String.mk (((s.data.dropWhile Char.isWhitespace).reverse.dropWhile Char.isWhitespace).reverse)

/-- Python `str.strip(chars)`: drop characters of `cs` from both ends. -/
def stripChars (cs : List Char) (s : String) : String :=
  String.mk (((s.data.dropWhile (cs.contains ·)).reverse.dropWhile (cs.contains ·)).reverse)

/-- Python `str.zfill(width)`: left-pad with `'0'` up to `width`,
keeping a leading sign in front of the padding. -/
def zfill (width : Nat) (s : String) : String :=
  if width ≤ s.data.length then s
  else
    let pad := List.replicate (width - s.data.length) '0'
    match s.data with
    | [] => String.mk pad
    | c :: rest =>
      if c = '+' || c = '-' then String.mk (c :: (pad ++ rest))
      else String.mk (pad ++ (c :: rest))

/-- Python `str.split()` (no argument): split on whitespace runs,
discarding empty pieces.  `acc` holds the current word reversed. -/
def pySplitAux : List Char → List Char → List (List Char)
  | [], acc => if acc = [] then [] else [acc.reverse]
  | c :: t, acc =>
    if c.isWhitespace then
      if acc = [] then pySplitAux t [] else acc.reverse :: pySplitAux t []
    else pySplitAux t (c :: acc)

def pySplit (s : String) : List String :=
  (pySplitAux s.data []).map String.mk

/-- Python `sep.join(l)`. -/
def joinWith (sep : String) : List String → String
  | [] => ""
  | [x] => x
  | x :: y :: t => x ++ sep ++ joinWith sep (y :: t)

/-! ### Data model for the raw PubMed records (main.py lines 19-47, 124-185)

Each Python dictionary key that the source reads becomes an `Option` field;
`none` means "key absent". -/

structure PubDate where
  Year : Option String
  Month : Option String
  Day : Option String
  MedlineDate : Option String
  deriving DecidableEq

def emptyPubDate : PubDate := ⟨none, none, none, none⟩

structure JournalIssue where
  PubDate : Option PubDate
  deriving DecidableEq

structure Journal where
  JournalIssue : Option JournalIssue
  deriving DecidableEq

structure AffiliationInfo where
  Affiliation : Option String
  deriving DecidableEq

structure Author where
  ForeName : Option String
  LastName : Option String
  AffiliationInfo : Option (List AffiliationInfo)
  deriving DecidableEq

structure ArticleData where
  ArticleTitle : Option String
  Journal : Option Journal
  Electronic_Mail_Address : Option String
  AuthorList : Option (List Author)
  deriving DecidableEq

structure MedlineCitation where
  PMID : Option String
  Article : Option ArticleData
  deriving DecidableEq

structure PubmedArticle where
  MedlineCitation : Option MedlineCitation
  deriving DecidableEq

/-! ### Date normalizer (`parse_publication_date`, main.py lines 19-47) -/

/-- `article_data.get("Journal", {}).get("JournalIssue", {}).get("PubDate", {})`. -/
def getPubDate (article_data : ArticleData) : PubDate :=
  match article_data.Journal with
  | none => emptyPubDate
  | some j =>
    match j.JournalIssue with
    | none => emptyPubDate
    | some ji => ji.PubDate.getD emptyPubDate

def monthNames : List String :=
  ["january", "february", "march", "april", "may", "june",
   "july", "august", "september", "october", "november", "december"]

/-- `datetime.strptime(month, "%B").month`: the whole string must be a full
English month name (case-insensitive); result is its 1-based index.
`none` embeds the `ValueError` case. -/
def strptimeMonthB (month : String) : Option Nat :=
  (monthNames.findIdx? (· = lowerStr month)).map (· + 1)

/-- Lines 29-33: `if month.isalpha(): month = str(datetime.strptime(month,
"%B").month).zfill(2)` with `ValueError` falling back to `"01"`. -/
def resolveMonth (month : String) : String :=
  if pyIsAlpha month then
    match strptimeMonthB month with
    | some n => zfill 2 (toString n)
    | none => "01"
  else month

/-- `re.search(r'(\d{4})', s)`: leftmost position where four consecutive
digit characters start; returns those four characters. -/
def findFourDigits : List Char → Option String
  | c1 :: c2 :: c3 :: c4 :: rest =>
    if c1.isDigit && c2.isDigit && c3.isDigit && c4.isDigit then
      some (String.mk [c1, c2, c3, c4])
    else findFourDigits (c2 :: c3 :: c4 :: rest)
  | _ => none

/-- `PubMedScraper.parse_publication_date` (lines 19-47).  The `try/except`
is dead in this typed embedding (no operation below can raise), so the
function is total; the year-absent fall-through returns `"Unknown"`. -/
def parse_publication_date (article_data : ArticleData) : String :=
  let pub_date := getPubDate article_data
  match pub_date.Year with
  | some year =>
    let month := resolveMonth (pub_date.Month.getD "01")
    let day := pub_date.Day.getD "01"
    year ++ "-" ++ zfill 2 month ++ "-" ++ zfill 2 day
  | none =>
    match pub_date.MedlineDate with
    | some medline_date =>
      match findFourDigits medline_date.data with
      | some y => y ++ "-01-01"
      | none => "Unknown"
    | none => "Unknown"

/-! ### Affiliation classifier (`is_company_affiliation`, main.py lines 77-98)

Every indicator regex in the source has the shape `\b(?:w1|w2|...)\b` where
each `wi` is a literal phrase, so a search is embedded as: some position of
the (already lowercased) string starts one of the phrases with a `\b` word
boundary on each side. -/

/-- Python regex `\w` (ASCII fragment): alphanumeric or underscore. -/
def isWordChar (c : Char) : Bool :=
  c.isAlphanum || c = '_'

def optIsWord : Option Char → Bool
  | some c => isWordChar c
  | none => false

/-- Regex `\b` at position `i` of `s`: exactly one side of the position is a
word character (the string edges count as non-word). -/
def boundaryAt (s : List Char) (i : Nat) : Bool :=
  let before := match i with
    | 0 => false
    | j + 1 => optIsWord s[j]?
  let after := optIsWord s[i]?
  before != after

/-- One alternative `w` of a `\b(?:...)\b` group matches at position `i`. -/
def altMatchesAt (s w : List Char) (i : Nat) : Bool :=
  w.isPrefixOf (s.drop i) && boundaryAt s i && boundaryAt s (i + w.length)

/-- `re.search(r'\b(?:alt1|alt2|...)\b', s)` viewed as a Boolean. -/
def reSearchWords (alts : List String) (s : String) : Bool :=
  (List.range (s.data.length + 1)).any fun i =>
    alts.any fun w => altMatchesAt s.data w.data i

/-- Lines 79-84, the four academic indicator regexes, one entry per regex,
each listed by its literal alternatives. -/
def academic_indicators : List (List String) :=
  [["university", "college", "institut", "academy", "school"],
   ["hospital", "medical center", "clinic"],
   ["research center", "laboratory", "department"],
   ["faculty", "division"]]

/-- Lines 89-96, the six company indicator regexes. -/
def company_indicators : List (List String) :=
  [["pharma", "pharmaceutical", "biotech", "biotechnology"],
   ["therapeutics", "biosciences", "biologics"],
   ["inc", "corp", "ltd", "gmbh", "s.a.", "llc", "co.", "company", "plc"],
   ["drug discovery", "r&d"],
   ["labs", "laboratories"],
   ["research", "development"]]

/-- Line 85: `' '.join(affiliation.lower().split())`. -/
def clean_affiliation (affiliation : String) : String :=
  joinWith " " (pySplit (lowerStr affiliation))

/-- `PubMedScraper.is_company_affiliation` (lines 77-98): any academic
indicator match returns `false` at once; otherwise the company indicators
decide. -/
def is_company_affiliation (affiliation : String) : Bool :=
  let ca := clean_affiliation affiliation
  if academic_indicators.any (fun ind => reSearchWords ind ca) then false
  else company_indicators.any (fun ind => reSearchWords ind ca)

/-! ### Email harvester (`extract_emails`, main.py lines 49-75)

Each of the six source regexes is a plain sequence of single-character
items around the common email atom `[\w\.-]+@[\w\.-]+\.\w+`, and the
harvested candidate is always that atom's span (`group(1)` for the five
patterns that define a group; `group(0)` for the bare pattern, whose whole
match is the atom).  The backtracking matcher below returns consumed
lengths in the regex engine's priority order (greedy first), so the head of
the list is the match Python's `finditer` yields. -/

/-- The character classes occurring in the six email regexes. -/
inductive CCls where
  | word
  | wdd
  | ws
  deriving DecidableEq

/-- `\w`, `[\w\.-]`, `\s` (ASCII fragments). -/
def CCls.matches : CCls → Char → Bool
  | .word, c => isWordChar c
  | .wdd, c => isWordChar c || c = '.' || c = '-'
  | .ws, c => c.isWhitespace

/-- One sequential regex item: a literal, a two-character set such as
`[Ee]`, or a greedy `+`/`*` over a character class. -/
inductive RE where
  | lit (c : Char)
  | alt2 (a b : Char)
  | plus (k : CCls)
  | star (k : CCls)
  deriving DecidableEq

/-- Length of the maximal leading run of characters in class `k`. -/
def runLen (k : CCls) : List Char → Nat
  | [] => 0
  | c :: t => if k.matches c then runLen k t + 1 else 0

/-- All lengths a sequence of items can consume from `s`, in backtracking
priority order (greedy repetitions first). -/
def matchSeq : List RE → List Char → List Nat
  | [], _ => [0]
  | .lit c :: rest, s =>
    match s with
    | [] => []
    | c' :: t => if c' = c then (matchSeq rest t).map (· + 1) else []
  | .alt2 a b :: rest, s =>
    match s with
    | [] => []
    | c' :: t => if c' = a || c' = b then (matchSeq rest t).map (· + 1) else []
  | .plus k :: rest, s =>
    let m := runLen k s
    (List.range m).flatMap fun j =>
      (matchSeq rest (s.drop (m - j))).map (· + (m - j))
  | .star k :: rest, s =>
    let m := runLen k s
    (List.range (m + 1)).flatMap fun j =>
      (matchSeq rest (s.drop (m - j))).map (· + (m - j))

/-- The common atom `[\w\.-]+@[\w\.-]+\.\w+`. -/
def emailAtom : List RE :=
  [.plus .wdd, .lit '@', .plus .wdd, .lit '.', .plus .word]

/-- One source regex, split as (items before the atom, items after it). -/
structure EmailPattern where
  pre : List RE
  post : List RE
  deriving DecidableEq

/-- Lines 51-61: the six email regexes, in source order. -/
def email_patterns : List EmailPattern :=
  [⟨[], []⟩,
   ⟨[.alt2 'E' 'e', .lit 'm', .lit 'a', .lit 'i', .lit 'l', .lit ':', .star .ws], []⟩,
   ⟨[.alt2 'E' 'e', .lit '-', .lit 'm', .lit 'a', .lit 'i', .lit 'l', .lit ':', .star .ws], []⟩,
   ⟨[.lit '['], [.lit ']']⟩,
   ⟨[.lit '('], [.lit ')']⟩,
   ⟨[.lit '<'], [.lit '>']⟩]

/-- All (pre, atom, post) consumed-length splits of a pattern match starting
at the head of `s`, in backtracking priority order. -/
def matchTriples (p : EmailPattern) (s : List Char) : List (Nat × Nat × Nat) :=
  (matchSeq p.pre s).flatMap fun a =>
    (matchSeq emailAtom (s.drop a)).flatMap fun b =>
      (matchSeq p.post (s.drop (a + b))).map fun c => (a, b, c)

/-- The match Python's engine produces at the current position, if any. -/
def matchAt (p : EmailPattern) (s : List Char) : Option (Nat × Nat × Nat) :=
  (matchTriples p s).head?

/-- `pattern.finditer(text)` projected to the harvested candidate strings:
scan left to right, and after a match continue at its end (matches never
overlap).  `fuel` only bounds the recursion; every step drops at least one
character, so `s.length + 1` is enough. -/
def scanMatches (p : EmailPattern) : Nat → List Char → List String
  | 0, _ => []
  | fuel + 1, s =>
    match matchAt p s with
    | some (a, b, c) =>
      String.mk ((s.drop a).take b) :: scanMatches p fuel (s.drop (a + b + c))
    | none =>
      match s with
      | [] => []
      | _ :: t => scanMatches p fuel t

def patternMatches (p : EmailPattern) (text : String) : List String :=
  scanMatches p (text.data.length + 1) text.data

/-- Line 68's strip set `'.,()<>[]{}'`. -/
def emailStripSet : List Char :=
  ['.', ',', '(', ')', '<', '>', '[', ']', Char.ofNat 0x7b, Char.ofNat 0x7d]

/-- Line 68: `email.strip('.,()<>[]{}').lower()`. -/
def normalizeEmail (s : String) : String :=
  lowerStr (stripChars emailStripSet s)

/-- Line 69: `re.match(r'^[\w\.-]+@[\w\.-]+\.\w+$', email)` — the atom must
consume the entire string. -/
def isValidEmail (email : String) : Bool :=
  (matchSeq emailAtom email.data).contains email.data.length

/-- Lines 66-70, the body of the per-match loop: normalize, re-validate,
and add to the accumulating set. -/
def processMatch (emails : Finset String) (m : String) : Finset String :=
  let email := normalizeEmail m
  if isValidEmail email then insert email emails else emails

/-- Lines 63-70, the per-pattern loop body.  The per-pattern `try/except`
is dead in this embedding (nothing below raises). -/
def harvestPattern (text : String) (emails : Finset String) (p : EmailPattern) : Finset String :=
  (patternMatches p text).foldl processMatch emails

/-- `extract_emails` generalized over the pattern list (the source fixes it
to `email_patterns`). -/
def extractEmailsWith (ps : List EmailPattern) (text : String) : Finset String :=
  ps.foldl (harvestPattern text) ∅

/-- `PubMedScraper.extract_emails` (lines 49-75). -/
def extract_emails (text : String) : Finset String :=
  extractEmailsWith email_patterns text

/-! ### Article extractor (`extract_article_info`, main.py lines 124-185) -/

/-- The qualifying output record (lines 172-179).  The author list and the
two sets are kept structured; the CSV layer joins them with `"; "`. -/
structure ExtractedArticle where
  PubmedID : String
  Title : String
  PublicationDate : String
  NonAcademicAuthors : List String
  CompanyAffiliations : Finset String
  Emails : Finset String
  deriving DecidableEq

/-- The mutable state of the author loop (lines 141-143):
`non_academic_authors`, `company_affiliations`, `all_emails`. -/
structure LoopState where
  nonAcademicAuthors : List String
  companyAffiliations : Finset String
  allEmails : Finset String
  deriving DecidableEq

/-- Python truthiness of `author.get(field)` for a string field. -/
def truthy : Option String → Bool
  | none => false
  | some s => s ≠ ""

/-- Lines 158-166, the per-affiliation loop body.  State:
(`author_has_company`, `company_affiliations`, `all_emails`). -/
def processAffiliation (st : Bool × Finset String × Finset String)
    (aff : AffiliationInfo) : Bool × Finset String × Finset String :=
  let affiliation := stripWS (aff.Affiliation.getD "")
  if affiliation = "" then st
  else
    let emails := extract_emails affiliation
    let all := st.2.2 ∪ emails
    if is_company_affiliation affiliation then
      (true, insert affiliation st.2.1, all)
    else
      (st.1, st.2.1, all)

/-- Lines 150-169, the per-author loop body. -/
def processAuthor (st : LoopState) (author : Author) : LoopState :=
  if !(truthy author.ForeName && truthy author.LastName) then st
  else
    let author_name := stripWS (author.ForeName.getD "" ++ " " ++ author.LastName.getD "")
    match author.AffiliationInfo with
    | none => st
    | some affs =>
      match affs.foldl processAffiliation (false, st.companyAffiliations, st.allEmails) with
      | (author_has_company, cAffs, emails) =>
        if author_has_company then
          ⟨st.nonAcademicAuthors ++ [author_name], cAffs, emails⟩
        else
          ⟨st.nonAcademicAuthors, cAffs, emails⟩

/-- Lines 130-182, the part of `extract_article_info` that follows the
three fallible key lookups (nothing here can raise). -/
def extract_core (pmid : String) (article_data : ArticleData) : Option ExtractedArticle :=
  if pmid = "" then none
  else
    let title := stripWS (article_data.ArticleTitle.getD "")
    if title = "" then none
    else
      let pub_date := parse_publication_date article_data
      if pub_date = "Unknown" then none
      else
        let all_emails := match article_data.Electronic_Mail_Address with
          | some t => extract_emails t
          | none => ∅
        let st := (article_data.AuthorList.getD []).foldl processAuthor ⟨[], ∅, all_emails⟩
        if st.nonAcademicAuthors ≠ [] ∧ st.companyAffiliations ≠ (∅ : Finset String) then
          some ⟨pmid, title, pub_date, st.nonAcademicAuthors, st.companyAffiliations, st.allEmails⟩
        else none

/-- The body of the `try` in `extract_article_info`: the three raw key
lookups `article["MedlineCitation"]`, `medline["Article"]`,
`medline["PMID"]` (lines 127-129) can raise `KeyError`, embedded as
`Except.error`. -/
def extract_article_info_body (article : PubmedArticle) :
    Except String (Option ExtractedArticle) :=
  match article.MedlineCitation with
  | none => .error "KeyError: MedlineCitation"
  | some medline =>
    match medline.Article with
    | none => .error "KeyError: Article"
    | some article_data =>
      match medline.PMID with
      | none => .error "KeyError: PMID"
      | some pmid => .ok (extract_core pmid article_data)

/-- `PubMedScraper.extract_article_info` (lines 124-185): the `except`
handler (lines 183-185) turns any raised error into `None`. -/
def extract_article_info (article : PubmedArticle) : Option ExtractedArticle :=
  match extract_article_info_body article with
  | .ok r => r
  | .error _ => none

/-- A qualifying sample article used by witnesses. -/
def sampleArticle : PubmedArticle :=
  ⟨some ⟨some "12345",
    some ⟨some "A Study",
      some ⟨some ⟨some ⟨some "2020", none, none, none⟩⟩⟩,
      none,
      some [⟨some "John", some "Doe", some [⟨some "Acme Pharma"⟩]⟩]⟩⟩⟩

def sampleExtracted : ExtractedArticle :=
  ⟨"12345", "A Study", "2020-01-01", ["John Doe"], {"Acme Pharma"}, ∅⟩

/-! ### Report writer (`save_to_csv`, main.py lines 187-214)

`save_to_csv` consumes the dictionaries built on lines 172-179; a row is a
record of optional string fields (`none` = key absent).  The model returns
the list of rows written, `none` when no file is written (empty input, or
nothing valid). -/

structure Entry where
  PubmedID : Option String
  Title : Option String
  PublicationDate : Option String
  NonAcademicAuthors : Option String
  CompanyAffiliations : Option String
  Email : Option String
  deriving DecidableEq

def Entry.setEmail (e : Entry) (v : Option String) : Entry :=
  ⟨e.PubmedID, e.Title, e.PublicationDate, e.NonAcademicAuthors,
   e.CompanyAffiliations, v⟩

/-- Line 195: `entry.get(field) and entry[field] not in ["Unknown", "None",
"", None]` for one field. -/
def fieldOK : Option String → Bool
  | none => false
  | some s => s ≠ "" && s ≠ "Unknown" && s ≠ "None"

/-- Lines 193-198: the completeness filter over the five checked columns
(the email column is not checked). -/
def entryValid (e : Entry) : Bool :=
  fieldOK e.PubmedID && fieldOK e.Title && fieldOK e.PublicationDate &&
    fieldOK e.NonAcademicAuthors && fieldOK e.CompanyAffiliations

/-- `PubMedScraper.save_to_csv` (lines 187-214) projected to the rows
written: `none` when the function returns before opening the file. -/
def save_to_csv (data : List Entry) : Option (List Entry) :=
  if data = [] then none
  else
    let valid_data := data.filter entryValid
    if valid_data = [] then none
    else some valid_data

/-- The claim's own characterization of one field disqualifying a row:
empty, missing, or the "Unknown" sentinel (it does not mention the literal
string "None" that the source also rejects). -/
def specFieldDisqualifies : Option String → Prop
  | none => True
  | some s => s = "" ∨ s = "Unknown"

/-- The claim's characterization of a kept row, as a Boolean. -/
def specRowKept (e : Entry) : Bool :=
  [e.PubmedID, e.Title, e.PublicationDate, e.NonAcademicAuthors,
   e.CompanyAffiliations].all fun o =>
    match o with
    | none => false
    | some s => s ≠ "" && s ≠ "Unknown"

def goodEntry : Entry :=
  ⟨some "12345", some "A Study", some "2020-01-01", some "John Doe",
   some "Acme Pharma", some "Not available"⟩

/-- A row whose Title is the literal string "None": the claim keeps it, the
source drops it. -/
def noneTitleEntry : Entry :=
  ⟨some "12345", some "None", some "2020-01-01", some "John Doe",
   some "Acme Pharma", some "Not available"⟩

/-! ### Helper lemmas -/

theorem zfill_two_length (s : String) : 2 ≤ (zfill 2 s).data.length := by
  obtain ⟨d⟩ := s
  unfold zfill
  by_cases h : 2 ≤ d.length
  · simp [h]
  · cases d with
    | nil => simp [h]
    | cons c rest =>
      simp only [List.length_cons] at h
      by_cases hc : c = '+' || c = '-' <;>
        simp [h, hc] <;> omega

theorem zfill_of_le (s : String) (h : 2 ≤ s.data.length) : zfill 2 s = s := by
  unfold zfill
  rw [if_pos h]

theorem zfill_two_idem (s : String) : zfill 2 (zfill 2 s) = zfill 2 s :=
  zfill_of_le _ (zfill_two_length s)

theorem dash_append_ne_Unknown (a b : String) : a ++ "-" ++ b ≠ "Unknown" := by
  intro h
  have hd : (a ++ "-" ++ b).data = "Unknown".data := congrArg String.data h
  rw [String.data_append, String.data_append] at hd
  have hmem : '-' ∈ a.data ++ "-".data ++ b.data :=
    List.mem_append_left _ (List.mem_append_right _ (by decide))
  rw [hd] at hmem
  exact absurd hmem (by decide)

/-- A concrete article-data value whose month is the name "March". -/
def marchArticleData : ArticleData :=
  ⟨none, some ⟨some ⟨some ⟨some "2020", some "March", none, none⟩⟩⟩, none, none⟩

/-- A concrete article-data value with only a Medline free-text date. -/
def medlineArticleData : ArticleData :=
  ⟨none, some ⟨some ⟨some ⟨none, none, none, some "Summer 2020"⟩⟩⟩, none, none⟩

/-- C4: when a year is present the normalizer always returns the composed
`year-month-day` string: month defaults to `"01"` when absent, an
alphabetic month is resolved as a full English month name to its 1-based
zero-padded index, an unrecognized month name falls back to `"01"`, day
defaults to `"01"`, both month and day are padded to at least two digits,
and the result is never the `"Unknown"` sentinel. -/
theorem date_year_present (ad : ArticleData) (y : String)
    (h : (getPubDate ad).Year = some y) :
    parse_publication_date ad =
      y ++ "-" ++ zfill 2 (resolveMonth ((getPubDate ad).Month.getD "01"))
        ++ "-" ++ zfill 2 ((getPubDate ad).Day.getD "01")
    ∧ ((getPubDate ad).Month = none →
        zfill 2 (resolveMonth ((getPubDate ad).Month.getD "01")) = "01")
    ∧ (∀ m n, pyIsAlpha m = true → strptimeMonthB m = some n →
        zfill 2 (resolveMonth m) = zfill 2 (toString n))
    ∧ (∀ m, pyIsAlpha m = true → strptimeMonthB m = none →
        zfill 2 (resolveMonth m) = "01")
    ∧ ((getPubDate ad).Day = none → zfill 2 ((getPubDate ad).Day.getD "01") = "01")
    ∧ 2 ≤ (zfill 2 (resolveMonth ((getPubDate ad).Month.getD "01"))).data.length
    ∧ 2 ≤ (zfill 2 ((getPubDate ad).Day.getD "01")).data.length
    ∧ parse_publication_date ad ≠ "Unknown" := by
  have hmain : parse_publication_date ad =
      y ++ "-" ++ zfill 2 (resolveMonth ((getPubDate ad).Month.getD "01"))
        ++ "-" ++ zfill 2 ((getPubDate ad).Day.getD "01") := by
    simp only [parse_publication_date]
    rw [h]
  refine ⟨hmain, ?_, ?_, ?_, ?_, zfill_two_length _, zfill_two_length _, ?_⟩
  · intro hm; rw [hm]; decide
  · intro m n ha hs
    simp [resolveMonth, ha, hs, zfill_two_idem]
  · intro m ha hs
    simp [resolveMonth, ha, hs]; decide
  · intro hd; rw [hd]; decide
  · rw [hmain]
    exact dash_append_ne_Unknown _ _

/-- Witness for C4 at a concrete input with an alphabetic month and no day. -/
theorem date_year_present_witness :
    (getPubDate marchArticleData).Year = some "2020"
    ∧ parse_publication_date marchArticleData = "2020-03-01" :=
  ⟨rfl, (date_year_present marchArticleData "2020" rfl).1.trans (by decide)⟩

/-- C5: with no year but a Medline free-text date, the normalizer returns
`{y}-01-01` for the first four consecutive digits `y` found in the text,
and the `"Unknown"` sentinel when no four consecutive digits occur. -/
theorem date_medline_fallback (ad : ArticleData) (md : String)
    (hy : (getPubDate ad).Year = none)
    (hm : (getPubDate ad).MedlineDate = some md) :
    (∀ y, findFourDigits md.data = some y → parse_publication_date ad = y ++ "-01-01")
    ∧ (findFourDigits md.data = none → parse_publication_date ad = "Unknown") := by
  constructor
  · intro y hf
    simp only [parse_publication_date]
    rw [hy, hm]
    show (match findFourDigits md.data with
      | some y => y ++ "-01-01"
      | none => "Unknown") = _
    rw [hf]
  · intro hf
    simp only [parse_publication_date]
    rw [hy, hm]
    show (match findFourDigits md.data with
      | some y => y ++ "-01-01"
      | none => "Unknown") = _
    rw [hf]

/-- Witness for C5 at the spec's own example "Summer 2020". -/
theorem date_medline_fallback_witness :
    (getPubDate medlineArticleData).Year = none
    ∧ (getPubDate medlineArticleData).MedlineDate = some "Summer 2020"
    ∧ parse_publication_date medlineArticleData = "2020-01-01" :=
  ⟨rfl, rfl,
    ((date_medline_fallback medlineArticleData "Summer 2020" rfl rfl).1 "2020"
      (by decide)).trans (by decide)⟩

/-- C10: the year-present branch performs no range validation: a numeric
month `"13"` is passed straight through, producing `"2020-13-01"` rather
than the `"Unknown"` sentinel. -/
theorem date_no_range_validation :
    parse_publication_date
      ⟨none, some ⟨some ⟨some ⟨some "2020", some "13", none, none⟩⟩⟩, none, none⟩
      = "2020-13-01"
    ∧ ("2020-13-01" : String) ≠ "Unknown" := by
  exact ⟨by decide, by decide⟩

/-- C1: the classifier checks the academic indicators first and returns
`false` as soon as any of them matches the cleaned affiliation, regardless
of any company-sounding terms also present; in particular "Pfizer Inc.,
Drug Discovery Division" is classified academic (`false`) because
"division" matches an academic indicator. -/
theorem academic_precedence (aff : String)
    (h : academic_indicators.any
      (fun ind => reSearchWords ind (clean_affiliation aff)) = true) :
    is_company_affiliation aff = false
    ∧ is_company_affiliation "Pfizer Inc., Drug Discovery Division" = false := by
  refine ⟨?_, by decide⟩
  simp only [is_company_affiliation]
  rw [h]
  rfl

/-- Witness for C1 at the Pfizer example: the academic indicator set does
match it, and the classifier returns `false`. -/
theorem academic_precedence_witness :
    academic_indicators.any
      (fun ind => reSearchWords ind (clean_affiliation "Pfizer Inc., Drug Discovery Division"))
      = true
    ∧ is_company_affiliation "Pfizer Inc., Drug Discovery Division" = false :=
  ⟨by decide, (academic_precedence "Pfizer Inc., Drug Discovery Division" (by decide)).1⟩

/-- C2 evaluated on the code: "Research Institute" is classified company
(`true`), not academic — the academic alternative "institut" is enclosed in
`\b...\b`, so it cannot match inside the word "institute", no academic
indicator matches, and the company term "research" then fires.  "XYZ
Research Group" is company as the claim states. -/
theorem research_institute_company :
    is_company_affiliation "Research Institute" = true
    ∧ academic_indicators.any
        (fun ind => reSearchWords ind (clean_affiliation "Research Institute")) = false
    ∧ is_company_affiliation "XYZ Research Group" = true :=
  ⟨by decide, by decide, by decide⟩

/-! ### Email harvester theorems (C8) -/

theorem foldl_processMatch_union (l : List String) (s : Finset String) :
    l.foldl processMatch s = s ∪ l.foldl processMatch ∅ := by
  induction l generalizing s with
  | nil => simp
  | cons a l ih =>
    rw [List.foldl_cons, List.foldl_cons, ih (processMatch s a), ih (processMatch ∅ a)]
    have hstep : processMatch s a = s ∪ processMatch ∅ a := by
      simp only [processMatch]
      split <;> simp [Finset.insert_eq, Finset.union_comm]
    rw [hstep, Finset.union_assoc]

theorem harvestPattern_union (t : String) (s : Finset String) (p : EmailPattern) :
    harvestPattern t s p = s ∪ harvestPattern t ∅ p :=
  foldl_processMatch_union _ s

theorem harvestPattern_comm (t : String) (s : Finset String) (p q : EmailPattern) :
    harvestPattern t (harvestPattern t s p) q = harvestPattern t (harvestPattern t s q) p := by
  rw [harvestPattern_union t (harvestPattern t s p) q,
      harvestPattern_union t s p,
      harvestPattern_union t (harvestPattern t s q) p,
      harvestPattern_union t s q,
      Finset.union_assoc, Finset.union_assoc,
      Finset.union_comm (harvestPattern t ∅ p)]

theorem foldl_harvest_perm (t : String) {ps qs : List EmailPattern} (h : ps.Perm qs) :
    ∀ s : Finset String, ps.foldl (harvestPattern t) s = qs.foldl (harvestPattern t) s := by
  induction h with
  | nil => intro s; rfl
  | cons x _ ih =>
    intro s
    rw [List.foldl_cons, List.foldl_cons, ih]
  | swap x y l =>
    intro s
    rw [List.foldl_cons, List.foldl_cons, List.foldl_cons, List.foldl_cons,
        harvestPattern_comm]
  | trans _ _ ih1 ih2 =>
    intro s
    rw [ih1, ih2]

/-- C8: the harvester is a pure function of its text (running it twice on
the same text yields the same set), and permuting the six extraction
patterns does not change the resulting set — it is a deduplicated union of
per-pattern matches. -/
theorem emails_idempotent_order_independent (t : String) (ps : List EmailPattern)
    (h : ps.Perm email_patterns) :
    extract_emails t = extract_emails t
    ∧ extractEmailsWith ps t = extract_emails t :=
  ⟨rfl, foldl_harvest_perm t h ∅⟩

/-- Witness for C8: the reversed pattern list is a permutation of the
source's list and produces the same set on a concrete text. -/
theorem emails_idempotent_order_independent_witness :
    (email_patterns.reverse).Perm email_patterns
    ∧ extractEmailsWith email_patterns.reverse "Email: a@b.cd" = extract_emails "Email: a@b.cd" :=
  ⟨List.reverse_perm email_patterns,
    (emails_idempotent_order_independent "Email: a@b.cd" email_patterns.reverse
      (List.reverse_perm email_patterns)).2⟩

/-! ### Article extractor theorems (C3, C7, C9) -/

theorem extract_core_nonempty (pmid : String) (ad : ArticleData) (r : ExtractedArticle)
    (h : extract_core pmid ad = some r) :
    r.NonAcademicAuthors ≠ [] ∧ r.CompanyAffiliations ≠ (∅ : Finset String) := by
  simp only [extract_core] at h
  split at h
  · exact absurd h (by simp)
  · split at h
    · exact absurd h (by simp)
    · split at h
      · exact absurd h (by simp)
      · split at h
        case _ hcond =>
          injection h with h'
          subst h'
          exact hcond
        case _ hcond =>
          exact absurd h (by simp)

/-- C3: an `ExtractedArticle` is only ever produced with a non-empty
non-academic-authors list and a non-empty company-affiliations set — in
every other case the extractor returns nothing. -/
theorem extract_article_nonempty (a : PubmedArticle) (r : ExtractedArticle)
    (h : extract_article_info a = some r) :
    r.NonAcademicAuthors ≠ [] ∧ r.CompanyAffiliations ≠ (∅ : Finset String) := by
  unfold extract_article_info at h
  cases hb : extract_article_info_body a with
  | error e => rw [hb] at h; exact absurd h (by simp)
  | ok v =>
    rw [hb] at h
    simp only at h
    subst h
    unfold extract_article_info_body at hb
    split at hb
    · exact absurd hb (by simp)
    · split at hb
      · exact absurd hb (by simp)
      · split at hb
        · exact absurd hb (by simp)
        · injection hb with hb'
          exact extract_core_nonempty _ _ _ hb'

/-- Witness for C3: a concrete qualifying article and its record. -/
theorem extract_article_nonempty_witness :
    extract_article_info sampleArticle = some sampleExtracted
    ∧ sampleExtracted.NonAcademicAuthors ≠ []
    ∧ sampleExtracted.CompanyAffiliations ≠ (∅ : Finset String) := by
  have hx : extract_article_info sampleArticle = some sampleExtracted := by decide
  exact ⟨hx, extract_article_nonempty sampleArticle sampleExtracted hx⟩

/-- C7: whenever the extraction body raises (embedded as `Except.error`),
`extract_article_info` returns `none` — per-article failure is swallowed,
never propagated. -/
theorem extraction_error_gives_none (a : PubmedArticle) (e : String)
    (h : extract_article_info_body a = .error e) :
    extract_article_info a = none := by
  unfold extract_article_info
  rw [h]

/-- Witness for C7: an article with no `MedlineCitation` key raises, and
the extractor returns `none`. -/
theorem extraction_error_gives_none_witness :
    extract_article_info_body ⟨none⟩ = .error "KeyError: MedlineCitation"
    ∧ extract_article_info ⟨none⟩ = none :=
  ⟨rfl, extraction_error_gives_none ⟨none⟩ "KeyError: MedlineCitation" rfl⟩

/-- C9: an article whose publication date normalizes to the `"Unknown"`
sentinel is discarded entirely by the extractor. -/
theorem unknown_date_discarded (a : PubmedArticle) (medline : MedlineCitation)
    (ad : ArticleData)
    (h1 : a.MedlineCitation = some medline) (h2 : medline.Article = some ad)
    (h3 : parse_publication_date ad = "Unknown") :
    extract_article_info a = none := by
  obtain ⟨mc⟩ := a
  change mc = some medline at h1
  subst h1
  obtain ⟨pOpt, aOpt⟩ := medline
  change aOpt = some ad at h2
  subst h2
  cases pOpt with
  | none => rfl
  | some pmid =>
    show extract_core pmid ad = none
    simp [extract_core, h3]

/-- Witness for C9: a concrete article with valid identifier and title but
no parsable date is dropped. -/
theorem unknown_date_discarded_witness :
    parse_publication_date ⟨some "T", none, none, none⟩ = "Unknown"
    ∧ extract_article_info ⟨some ⟨some "1", some ⟨some "T", none, none, none⟩⟩⟩ = none := by
  have h3 : parse_publication_date ⟨some "T", none, none, none⟩ = "Unknown" := by decide
  exact ⟨h3, unknown_date_discarded ⟨some ⟨some "1", some ⟨some "T", none, none, none⟩⟩⟩
    ⟨some "1", some ⟨some "T", none, none, none⟩⟩ ⟨some "T", none, none, none⟩ rfl rfl h3⟩

/-! ### Report writer theorems (C6) -/

/-- One optional field value the source's filter rejects, in `Prop` form:
missing, empty, the `"Unknown"` sentinel, or the literal string `"None"`. -/
def dropValue : Option String → Prop
  | none => True
  | some s => s = "" ∨ s = "Unknown" ∨ s = "None"

theorem fieldOK_iff (o : Option String) : fieldOK o = true ↔ ¬ dropValue o := by
  cases o with
  | none => simp [fieldOK, dropValue]
  | some s =>
    simp [fieldOK, dropValue]
    tauto

/-- Counterexample to C6 as stated: a row whose Title is the literal string
`"None"` is neither empty, missing, nor the `"Unknown"` sentinel — the
claim says it is written — yet the source drops it (and, the list becoming
empty, writes no file at all). -/
theorem none_string_row_dropped :
    specRowKept noneTitleEntry = true ∧ save_to_csv [noneTitleEntry] = none :=
  ⟨by decide, by decide⟩

/-- C6 amended: a row is dropped iff at least one of the five checked
fields is missing, empty, equal to `"Unknown"`, or equal to the literal
string `"None"`; the email field never affects the filter. -/
theorem save_to_csv_drop_characterization (data : List Entry) (e : Entry)
    (h : e ∈ data) :
    (entryValid e = true ↔
      ¬ (dropValue e.PubmedID ∨ dropValue e.Title ∨ dropValue e.PublicationDate ∨
         dropValue e.NonAcademicAuthors ∨ dropValue e.CompanyAffiliations))
    ∧ (∀ rows, save_to_csv data = some rows → (e ∈ rows ↔ entryValid e = true))
    ∧ (∀ v, entryValid (e.setEmail v) = entryValid e) := by
  refine ⟨?_, ?_, ?_⟩
  · simp only [entryValid, Bool.and_eq_true, fieldOK_iff]
    tauto
  · intro rows hr
    have hrows : rows = data.filter entryValid := by
      simp only [save_to_csv] at hr
      split at hr
      · exact absurd hr (by simp)
      · split at hr
        · exact absurd hr (by simp)
        · injection hr with hr'
          exact hr'.symm
    subst hrows
    simp [List.mem_filter, h]
  · intro v
    obtain ⟨p, t, d, na, ca, em⟩ := e
    rfl

/-- Witness for C6's amended theorem at a concrete two-row input. -/
theorem save_to_csv_drop_characterization_witness :
    goodEntry ∈ [goodEntry, noneTitleEntry]
    ∧ (∀ v, entryValid (goodEntry.setEmail v) = entryValid goodEntry) :=
  ⟨by decide,
    (save_to_csv_drop_characterization [goodEntry, noneTitleEntry] goodEntry (by decide)).2.2⟩

/-! ### Sanity checks of the embedding against the spec's test vectors -/

theorem sanity_dates :
    parse_publication_date
      ⟨none, some ⟨some ⟨some ⟨some "2020", some "March", none, none⟩⟩⟩, none, none⟩
      = "2020-03-01"
    ∧ parse_publication_date
      ⟨none, some ⟨some ⟨some ⟨none, none, none, some "Summer 2020"⟩⟩⟩, none, none⟩
      = "2020-01-01"
    ∧ parse_publication_date ⟨none, none, none, none⟩ = "Unknown" :=
  ⟨by decide, by decide, by decide⟩

theorem sanity_classifier :
    is_company_affiliation "Department of Biology, Stanford University" = false
    ∧ is_company_affiliation "XYZ Biosciences Inc" = true
    ∧ is_company_affiliation "" = false :=
  ⟨by decide, by decide, by decide⟩

theorem sanity_emails :
    extract_emails "Contact: jane.doe@biotech-corp.com, or [j.doe@otherlab.org]"
      = {"jane.doe@biotech-corp.com", "j.doe@otherlab.org"}
    ∧ extract_emails "not-an-email @" = ∅ :=
  ⟨by decide, by decide⟩

theorem sanity_extractor_academic_only :
    extract_article_info
      ⟨some ⟨some "1", some ⟨some "T",
        some ⟨some ⟨some ⟨some "2020", none, none, none⟩⟩⟩, none,
        some [⟨some "A", some "B", some [⟨some "University Hospital"⟩]⟩]⟩⟩⟩ = none :=
  by decide

theorem sanity_csv :
    save_to_csv [goodEntry, ⟨some "2", none, some "2020-01-01", some "A", some "B", none⟩]
      = some [goodEntry] :=
  by decide
